import Mathlib

/-!
Verification of the query-builder / request-executor core of the
`Profile_login_api` repository (`app/database.py`, with the pagination
arithmetic of `app/services/profile_service.py`).

The embedding models Python dictionaries as insertion-ordered association
lists with overwrite-in-place semantics, HTTP requests and responses as
explicit records, and the single network round trip of `execute` as a
function of the transport outcome (either a transport-level failure or an
`HttpResponse`).
-/

namespace ProfileApi

/-- A Python `dict` with string keys and string values, modelled as an
insertion-ordered association list in which each key occurs at most once. -/
abbrev Dict := List (String × String)

/-- Python `d[k] = v`: overwrite in place if `k` is present, else append. -/
def dictSet (d : Dict) (k v : String) : Dict :=
  match d with
  | [] => [(k, v)]
  | (k', v') :: rest => if k' = k then (k, v) :: rest else (k', v') :: dictSet rest k v

/-- Python `d.get(k)`: the value bound to `k`, if any. -/
def dictGet (d : Dict) (k : String) : Option String :=
  match d with
  | [] => none
  | (k', v) :: rest => if k' = k then some v else dictGet rest k

/-- A JSON row object (column name to value), as returned by the backend. -/
abbrev Row := List (String × String)

/-- Python `s.split(sep)` for a one-character separator: splits into the
(always non-empty) list of segments between occurrences of `sep`, keeping
empty segments. -/
def splitOnChar (sep : Char) : List Char → List (List Char)
  | [] => [[]]
  | c :: rest =>
    let r := splitOnChar sep rest
    if c = sep then [] :: r
    else
      match r with
      | [] => [[c]]
      | g :: gs => (c :: g) :: gs

/-- Python `s.split(sep)[-1]`: the segment after the final occurrence of
`sep` (the whole string when `sep` does not occur). -/
def lastToken (sep : Char) (s : String) : String :=
  ⟨(splitOnChar sep s.data).getLastD []⟩

/-- The ASCII whitespace characters Python `int` strips from both ends. -/
def isPySpace (c : Char) : Bool :=
  c = ' ' || c = '\t' || c = '\n' || c = '\x0d' || c = '\x0b' || c = '\x0c'

/-- Python `s.strip()` on the character list: whitespace removed from both
ends. -/
def stripChars (cs : List Char) : List Char :=
  ((cs.dropWhile isPySpace).reverse.dropWhile isPySpace).reverse

/-- Python `int(s)` restricted to the decimal forms the backend emits:
optional surrounding whitespace, an optional sign, then decimal digits.
Returns `none` where Python `int` raises `ValueError` (e.g. on `"*"`). -/
def pyInt (s : String) : Option Int :=
  let t := stripChars s.data
  let (sign, digits) :=
    match t with
    | '-' :: rest => ((-1 : Int), rest)
    | '+' :: rest => ((1 : Int), rest)
    | _ => ((1 : Int), t)
  if digits = [] then none
  else if digits.all Char.isDigit then
    some (sign * (digits.foldl (fun acc c => acc * 10 + (c.toNat - 48)) 0 : Nat))
  else none

/-- `SupabaseResponse` from `app/database.py`: the result envelope of one
execution, a row sequence plus an optional total count. -/
structure SupabaseResponse where
  data : List Row
  count : Option Int
deriving Repr, DecidableEq

/-- The builder state of `TableQuery` from `app/database.py`:
`base_url` (already joined with the table name), a private copy of the
client headers, the accumulated query parameters, the HTTP method
(`_method`, default `"GET"`), and the staged JSON body (`_body`). -/
structure TableQuery where
  base_url : String
  headers : Dict
  query_params : Dict
  method : String
  body : Option Row
deriving Repr, DecidableEq

namespace TableQuery

/-- `TableQuery.__init__(base_url, headers, table)`. -/
def init (base_url : String) (headers : Dict) (table : String) : TableQuery :=
  { base_url := base_url ++ "/" ++ table
    headers := headers
    query_params := []
    method := "GET"
    body := none }

/-- `select(columns="*", count=None)`: sets the projection parameter and,
when `count` is truthy (a non-empty string), the `Prefer: count=<mode>`
header. -/
def select (q : TableQuery) (columns : String) (count : Option String) : TableQuery :=
  let q' := { q with query_params := dictSet q.query_params "select" columns }
  match count with
  | none => q'
  | some c =>
      if c = "" then q'
      else { q' with headers := dictSet q'.headers "Prefer" ("count=" ++ c) }

/-- `eq(column, value)`: sets query parameter `column = "eq.<value>"`.
The Python method accepts `Any` and stringifies it via the f-string; the
model takes the stringified value. -/
def eq (q : TableQuery) (column value : String) : TableQuery :=
  { q with query_params := dictSet q.query_params column ("eq." ++ value) }

/-- `neq(column, value)`: sets query parameter `column = "neq.<value>"`. -/
def neq (q : TableQuery) (column value : String) : TableQuery :=
  { q with query_params := dictSet q.query_params column ("neq." ++ value) }

/-- `ilike(column, pattern)`: sets query parameter `column = "ilike.<pattern>"`. -/
def ilike (q : TableQuery) (column pattern : String) : TableQuery :=
  { q with query_params := dictSet q.query_params column ("ilike." ++ pattern) }

/-- `or_(conditions)`: sets query parameter `or = "(<conditions>)"`. -/
def or_ (q : TableQuery) (conditions : String) : TableQuery :=
  { q with query_params := dictSet q.query_params "or" ("(" ++ conditions ++ ")") }

/-- `order(column, desc=False)`: sets query parameter
`order = "<column>.<asc|desc>"`. -/
def order (q : TableQuery) (column : String) (desc : Bool) : TableQuery :=
  let direction := if desc then "desc" else "asc"
  { q with query_params := dictSet q.query_params "order" (column ++ "." ++ direction) }

/-- `limit(count)`: sets query parameter `limit = str(count)`. -/
def limit (q : TableQuery) (count : Int) : TableQuery :=
  { q with query_params := dictSet q.query_params "limit" (toString count) }

/-- `range(start, end)`: sets the request header `Range: <start>-<end>`. -/
def range (q : TableQuery) (start stop : Int) : TableQuery :=
  { q with headers := dictSet q.headers "Range" (toString start ++ "-" ++ toString stop) }

/-- `insert(data)`: stages a POST with `data` as JSON body and sets
`Prefer: return=representation`. -/
def insert (q : TableQuery) (data : Row) : TableQuery :=
  { q with method := "POST"
           body := some data
           headers := dictSet q.headers "Prefer" "return=representation" }

/-- `update(data)`: stages a PATCH with `data` as JSON body and sets
`Prefer: return=representation`. -/
def update (q : TableQuery) (data : Row) : TableQuery :=
  { q with method := "PATCH"
           body := some data
           headers := dictSet q.headers "Prefer" "return=representation" }

/-- `delete()`: stages a DELETE (no body is sent for it on execution) and
sets `Prefer: return=representation`. -/
def delete (q : TableQuery) : TableQuery :=
  { q with method := "DELETE"
           headers := dictSet q.headers "Prefer" "return=representation" }

end TableQuery

/-- The single HTTP request issued by `execute`: `client.get/post/patch/delete`
is called with the builder's URL, headers and query parameters; only the
POST and PATCH branches pass `json=self._body`. -/
structure HttpRequest where
  url : String
  method : String
  headers : Dict
  params : Dict
  body : Option Row
deriving Repr, DecidableEq

/-- The request `execute` would issue for a given builder state, read off
the four dispatch branches of `TableQuery.execute`. -/
def TableQuery.toRequest (q : TableQuery) : HttpRequest :=
  { url := q.base_url
    method := q.method
    headers := q.headers
    params := q.query_params
    body := if q.method = "POST" ∨ q.method = "PATCH" then q.body else none }

/-- The response observed by `execute`: the status code, the raw body text,
the rows that `response.json()` would yield when the text is non-empty
(JSON decoding itself is done by the `httpx` library and is modelled as
this pre-parsed field), and `response.headers.get("content-range")`. -/
structure HttpResponse where
  status_code : Nat
  text : String
  jsonRows : List Row
  content_range : Option String
deriving Repr, DecidableEq

/-- The two kinds of error `execute` can raise: a transport-level `httpx`
exception propagated unchanged (connection refused, timeout, ...), or the
`Exception("Database error: <status> - <detail>")` raised on status ≥ 400. -/
inductive ExecError where
  | transport (e : String)
  | backend (status_code : Nat) (detail : String)
deriving Repr, DecidableEq

/-- `TableQuery.execute`, as a function of the transport outcome `net`
(a transport failure or the `HttpResponse` obtained).  On a response it
follows the source line by line: status ≥ 400 raises a backend error with
the status and raw text; the data is `response.json()` when the text is
non-empty, else `[]`; when the content-range header is truthy its segment
after the last `/` is parsed with `int`, falling back to `len(data)` on
parse failure; otherwise the count stays `None`. -/
def TableQuery.execute (_q : TableQuery) (net : Except String HttpResponse) :
    Except ExecError SupabaseResponse :=
  match net with
  | .error e => .error (.transport e)
  | .ok response =>
    if 400 ≤ response.status_code then
      .error (.backend response.status_code response.text)
    else
      let data := if response.text = "" then [] else response.jsonRows
      let count : Option Int :=
        match response.content_range with
        | none => none
        | some cr =>
            if cr = "" then none
            else
              match pyInt (lastToken '/' cr) with
              | some n => some n
              | none => some (data.length : Int)
      .ok { data := data, count := count }

/-- `SupabaseClient` from `app/database.py`: base URL `<supabase_url>/rest/v1`
and the three always-sent headers. -/
structure SupabaseClient where
  base_url : String
  headers : Dict
deriving Repr, DecidableEq

/-- `SupabaseClient.__init__`, parameterised by the two settings values. -/
def SupabaseClient.make (supabase_url supabase_key : String) : SupabaseClient :=
  { base_url := supabase_url ++ "/rest/v1"
    headers := [("apikey", supabase_key),
                ("Authorization", "Bearer " ++ supabase_key),
                ("Content-Type", "application/json")] }

/-- `SupabaseClient.from_(table)`. -/
def SupabaseClient.from_ (c : SupabaseClient) (table : String) : TableQuery :=
  TableQuery.init c.base_url c.headers table

/-- The query built by `ProfileService.get_all_profiles(page, limit, is_active, role)`
in `app/services/profile_service.py`, up to the point it is executed:
`offset = (page - 1) * limit`, a `select("*", count="exact")`, the two
optional equality filters (values pre-stringified, as the f-string in `eq`
does), then `order("created_at", desc=True)` and
`range(offset, offset + limit - 1)`. -/
def getAllProfilesQuery (c : SupabaseClient) (page limit : Int)
    (is_active : Option String) (role : Option String) : TableQuery :=
  let offset := (page - 1) * limit
  let q := (c.from_ "profiles").select "*" (some "exact")
  let q := match is_active with
    | some v => q.eq "is_active" v
    | none => q
  let q := match role with
    | some v => q.eq "role" v
    | none => q
  ((q.order "created_at" true).range offset (offset + limit - 1))

/-- One filter call of the builder targeting a fixed column: `eq`, `neq`
or `ilike`. -/
inductive FilterCall where
  | feq (value : String)
  | fneq (value : String)
  | filike (pattern : String)
deriving Repr, DecidableEq

/-- Apply one filter call to the builder on the given column. -/
def applyFilter (column : String) (q : TableQuery) : FilterCall → TableQuery
  | .feq v => q.eq column v
  | .fneq v => q.neq column v
  | .filike p => q.ilike column p

/-- The encoded predicate string a filter call produces. -/
def encodeFilter : FilterCall → String
  | .feq v => "eq." ++ v
  | .fneq v => "neq." ++ v
  | .filike p => "ilike." ++ p

/-- One staged mutation: `insert(data)`, `update(data)` or `delete()`. -/
inductive Mutation where
  | ins (data : Row)
  | upd (data : Row)
  | del
deriving Repr, DecidableEq

/-- Apply one mutation-staging call to the builder. -/
def TableQuery.stage (q : TableQuery) : Mutation → TableQuery
  | .ins d => q.insert d
  | .upd d => q.update d
  | .del => q.delete

theorem dictGet_dictSet_self (d : Dict) (k v : String) :
    dictGet (dictSet d k v) k = some v := by
  induction d with
  | nil => simp [dictSet, dictGet]
  | cons hd tl ih =>
    obtain ⟨k1, v1⟩ := hd
    by_cases h : k1 = k <;> simp [dictSet, dictGet, h, ih]

theorem dictGet_dictSet_ne (d : Dict) (k v k' : String) (h : k' ≠ k) :
    dictGet (dictSet d k v) k' = dictGet d k' := by
  induction d with
  | nil => simp [dictSet, dictGet, Ne.symm h]
  | cons hd tl ih =>
    obtain ⟨k1, v1⟩ := hd
    by_cases h1 : k1 = k
    · subst h1
      simp [dictSet, dictGet, Ne.symm h]
    · simp [dictSet, dictGet, h1, ih]

theorem applyFilter_get_self (column : String) (q : TableQuery) (f : FilterCall) :
    dictGet (applyFilter column q f).query_params column = some (encodeFilter f) := by
  cases f <;>
    simp [applyFilter, encodeFilter, TableQuery.eq, TableQuery.neq, TableQuery.ilike,
      dictGet_dictSet_self]

theorem applyFilter_get_other (column : String) (q : TableQuery) (f : FilterCall)
    (other : String) (h : other ≠ column) :
    dictGet (applyFilter column q f).query_params other = dictGet q.query_params other := by
  cases f <;>
    simp [applyFilter, TableQuery.eq, TableQuery.neq, TableQuery.ilike,
      dictGet_dictSet_ne _ _ _ _ h]

theorem foldl_applyFilter_get_other (column : String) (calls : List FilterCall)
    (q : TableQuery) (other : String) (h : other ≠ column) :
    dictGet (calls.foldl (applyFilter column) q).query_params other
      = dictGet q.query_params other := by
  induction calls generalizing q with
  | nil => rfl
  | cons f rest ih => rw [List.foldl_cons, ih, applyFilter_get_other _ _ _ _ h]

/-- C1: every HTTP response with status ≥ 400 makes `execute` fail with a
backend error carrying exactly that status code and the raw response body;
no success envelope is returned. -/
theorem execute_backend_error_on_error_status (q : TableQuery) (r : HttpResponse)
    (h : 400 ≤ r.status_code) :
    q.execute (.ok r) = .error (.backend r.status_code r.text) := by
  simp [TableQuery.execute, h]

/-- C1 witness: a 404 response with body text is turned into exactly
`backend 404 <body>`. -/
theorem execute_backend_error_on_error_status_witness :
    400 ≤ 404 ∧
    (((SupabaseClient.make "u" "k").from_ "profiles").execute
        (.ok { status_code := 404, text := "not found", jsonRows := [], content_range := none }))
      = .error (.backend 404 "not found") :=
  ⟨by decide,
   execute_backend_error_on_error_status ((SupabaseClient.make "u" "k").from_ "profiles")
     { status_code := 404, text := "not found", jsonRows := [], content_range := none }
     (by decide)⟩

/-- C2: on a successful response with a truthy content-range header, the
segment after the final `/` parsed as an integer gives the count; when it
does not parse, the count is the number of rows in the body, and execution
still succeeds. -/
theorem execute_count_parsing (q : TableQuery) (r : HttpResponse) (cr : String)
    (hs : r.status_code < 400) (hcr : r.content_range = some cr) (hne : cr ≠ "") :
    ∃ env : SupabaseResponse, q.execute (.ok r) = .ok env ∧
      (∀ n : Int, pyInt (lastToken '/' cr) = some n → env.count = some n) ∧
      (pyInt (lastToken '/' cr) = none →
        env.count = some (env.data.length : Int)) := by
  have h4 : ¬ 400 ≤ r.status_code := by omega
  cases hp : pyInt (lastToken '/' cr) with
  | some n =>
      refine ⟨{ data := if r.text = "" then [] else r.jsonRows, count := some n }, ?_, ?_, ?_⟩
      · simp [TableQuery.execute, h4, hcr, hne, hp]
      · intro m hm
        exact hm
      · intro hm
        exact absurd hm (by simp)
  | none =>
      refine ⟨{ data := if r.text = "" then [] else r.jsonRows,
                count := some ((if r.text = "" then ([] : List Row) else r.jsonRows).length : Int) },
              ?_, ?_, ?_⟩
      · simp [TableQuery.execute, h4, hcr, hne, hp]
      · intro m hm
        exact absurd hm (by simp)
      · intro _
        rfl

/-- C2 witness: `Content-Range: 0-9/42` on a one-row page yields count 42. -/
theorem execute_count_parsing_witness :
    200 < 400 ∧ ("0-9/42" : String) ≠ "" ∧
    (∃ env : SupabaseResponse,
      (((SupabaseClient.make "u" "k").from_ "profiles").execute
          (.ok { status_code := 200, text := "[]", jsonRows := [[("id", "1")]],
                 content_range := some "0-9/42" }))
        = .ok env ∧
      (∀ n : Int, pyInt (lastToken '/' "0-9/42") = some n → env.count = some n) ∧
      (pyInt (lastToken '/' "0-9/42") = none →
        env.count = some (env.data.length : Int))) :=
  ⟨by decide, by decide,
   execute_count_parsing ((SupabaseClient.make "u" "k").from_ "profiles")
     { status_code := 200, text := "[]", jsonRows := [[("id", "1")]],
       content_range := some "0-9/42" }
     "0-9/42" (by decide) rfl (by decide)⟩

/-- C3: for page ≥ 1 and limit ≥ 1, `get_all_profiles` computes
`offset = (page-1)*limit` and transmits the inclusive row range as the
request header `Range: <offset>-<offset+limit-1>`. -/
theorem paginate_range_header (c : SupabaseClient) (page limit : Int)
    (is_active role : Option String) (hp : 1 ≤ page) (hl : 1 ≤ limit) :
    dictGet (getAllProfilesQuery c page limit is_active role).toRequest.headers "Range"
      = some (toString ((page - 1) * limit) ++ "-"
          ++ toString ((page - 1) * limit + limit - 1)) := by
  cases is_active <;> cases role <;>
    simp [getAllProfilesQuery, TableQuery.toRequest, TableQuery.range,
      SupabaseClient.from_, TableQuery.init, TableQuery.select, TableQuery.eq,
      TableQuery.order, dictGet_dictSet_self]

/-- C3 witness: page 2 with limit 10 transmits `Range: 10-19`. -/
theorem paginate_range_header_witness :
    (1 : Int) ≤ 2 ∧ (1 : Int) ≤ 10 ∧
    dictGet (getAllProfilesQuery (SupabaseClient.make "u" "k") 2 10 none none).toRequest.headers
        "Range" = some "10-19" := by
  refine ⟨by decide, by decide, ?_⟩
  have h := paginate_range_header (SupabaseClient.make "u" "k") 2 10 none none
    (by decide) (by decide)
  norm_num at h
  exact h

/-- C4: in any sequence of filter calls on one column, only the last call's
encoded predicate survives in the final query parameters (last-write-wins),
and parameters at every other column are untouched. -/
theorem filter_last_write_wins (q : TableQuery) (column : String)
    (calls : List FilterCall) (last : FilterCall) (other : String) (h : other ≠ column) :
    dictGet ((calls ++ [last]).foldl (applyFilter column) q).toRequest.params column
      = some (encodeFilter last) ∧
    dictGet ((calls ++ [last]).foldl (applyFilter column) q).toRequest.params other
      = dictGet q.query_params other := by
  rw [List.foldl_append]
  constructor
  · simpa [TableQuery.toRequest] using
      applyFilter_get_self column (calls.foldl (applyFilter column) q) last
  · show dictGet (applyFilter column (calls.foldl (applyFilter column) q) last).query_params other
      = dictGet q.query_params other
    rw [applyFilter_get_other _ _ _ _ h, foldl_applyFilter_get_other _ _ _ _ h]

/-- C4 witness: `eq` then `neq` then `ilike` on column "role" leaves only
`ilike.adm%`, and an unrelated pre-existing parameter is retained. -/
theorem filter_last_write_wins_witness :
    ("email" : String) ≠ "role" ∧
    (dictGet (([FilterCall.feq "user", FilterCall.fneq "admin"]
          ++ [FilterCall.filike "adm%"]).foldl
          (applyFilter "role")
          (((SupabaseClient.make "u" "k").from_ "profiles").eq "email" "a@b.com")).toRequest.params
        "role" = some (encodeFilter (FilterCall.filike "adm%")) ∧
     dictGet (([FilterCall.feq "user", FilterCall.fneq "admin"]
          ++ [FilterCall.filike "adm%"]).foldl
          (applyFilter "role")
          (((SupabaseClient.make "u" "k").from_ "profiles").eq "email" "a@b.com")).toRequest.params
        "email"
      = dictGet (((SupabaseClient.make "u" "k").from_ "profiles").eq
          "email" "a@b.com").query_params "email") :=
  ⟨by decide,
   filter_last_write_wins (((SupabaseClient.make "u" "k").from_ "profiles").eq "email" "a@b.com")
     "role" [FilterCall.feq "user", FilterCall.fneq "admin"] (FilterCall.filike "adm%")
     "email" (by decide)⟩

/-- C5 counterexample: a builder that never requested a count mode (no
`select` with `count`) still yields an envelope whose count is populated
(here 42) whenever the response carries a content-range header, refuting
"when count_mode was not requested, the envelope's count is absent". -/
theorem count_present_without_count_mode :
    (((SupabaseClient.make "u" "k").from_ "profiles").execute
        (.ok { status_code := 200, text := "[]", jsonRows := [],
               content_range := some "0-9/42" }))
      = .ok { data := [], count := some 42 } := by
  rfl

/-- C5 amended: on a successful response, the envelope's count is populated
exactly when the response carries a truthy (non-empty) content-range
header — independent of whether `count_mode` was requested. -/
theorem count_presence_matches_content_range (q : TableQuery) (r : HttpResponse)
    (hs : r.status_code < 400) :
    ∃ env : SupabaseResponse, q.execute (.ok r) = .ok env ∧
      (env.count ≠ none ↔ ∃ cr, r.content_range = some cr ∧ cr ≠ "") := by
  have h4 : ¬ 400 ≤ r.status_code := by omega
  cases hcr : r.content_range with
  | none =>
      refine ⟨{ data := if r.text = "" then [] else r.jsonRows, count := none }, ?_, ?_⟩
      · simp [TableQuery.execute, h4, hcr]
      · simp [hcr]
  | some cr =>
      by_cases hne : cr = ""
      · subst hne
        refine ⟨{ data := if r.text = "" then [] else r.jsonRows, count := none }, ?_, ?_⟩
        · simp [TableQuery.execute, h4, hcr]
        · simp [hcr]
      · cases hp : pyInt (lastToken '/' cr) with
        | some n =>
            refine ⟨{ data := if r.text = "" then [] else r.jsonRows, count := some n }, ?_, ?_⟩
            · simp [TableQuery.execute, h4, hcr, hne, hp]
            · simp [hcr, hne]
        | none =>
            refine ⟨{ data := if r.text = "" then [] else r.jsonRows,
                      count := some ((if r.text = "" then ([] : List Row)
                        else r.jsonRows).length : Int) }, ?_, ?_⟩
            · simp [TableQuery.execute, h4, hcr, hne, hp]
            · simp [hcr, hne]

/-- C5 amended witness: without any count request, a content-range header
`0-9/42` still populates count 42. -/
theorem count_presence_matches_content_range_witness :
    200 < 400 ∧
    (∃ env : SupabaseResponse,
      (((SupabaseClient.make "u" "k").from_ "profiles").execute
          (.ok { status_code := 200, text := "[]", jsonRows := [],
                 content_range := some "0-9/42" }))
        = .ok env ∧
      (env.count ≠ none ↔
        ∃ cr, (some "0-9/42" : Option String) = some cr ∧ cr ≠ "")) :=
  ⟨by decide,
   count_presence_matches_content_range ((SupabaseClient.make "u" "k").from_ "profiles")
     { status_code := 200, text := "[]", jsonRows := [], content_range := some "0-9/42" }
     (by decide)⟩

/-- The concrete builder chain of the `profiles` scenario: table `profiles`
with `eq("role","user")`, `order("created_at", desc=True)` and
`range(0, 9)`. -/
def profilesScenarioQuery (url key : String) : TableQuery :=
  ((((SupabaseClient.make url key).from_ "profiles").eq "role" "user").order
      "created_at" true).range 0 9

/-- C6: table `profiles` with `eq("role","user")`, `order("created_at",
desc=True)` and range 0–9 produces a GET to `<base>/rest/v1/profiles`
with query parameters `role=eq.user`, `order=created_at.desc` and request
header `Range: 0-9`. -/
theorem profiles_query_scenario (url key : String) :
    (profilesScenarioQuery url key).toRequest.method = "GET" ∧
    (profilesScenarioQuery url key).toRequest.url = url ++ "/rest/v1/profiles" ∧
    dictGet (profilesScenarioQuery url key).toRequest.params "role" = some "eq.user" ∧
    dictGet (profilesScenarioQuery url key).toRequest.params "order"
      = some "created_at.desc" ∧
    dictGet (profilesScenarioQuery url key).toRequest.headers "Range" = some "0-9" := by
  refine ⟨rfl, ?_, rfl, rfl, rfl⟩
  show ((url ++ "/rest/v1") ++ "/") ++ "profiles" = url ++ "/rest/v1/profiles"
  rw [String.append_assoc, String.append_assoc]
  congr 1

/-- C7: staging maps READ→GET (the default), INSERT→POST, UPDATE→PATCH,
DELETE→DELETE; insert and update transmit their payload as the JSON body,
delete transmits no body, and all three mutations set
`Prefer: return=representation`. -/
theorem mutation_dispatch (q : TableQuery) (d : Row) :
    ((q.insert d).toRequest.method = "POST" ∧ (q.insert d).toRequest.body = some d ∧
      dictGet (q.insert d).toRequest.headers "Prefer" = some "return=representation") ∧
    ((q.update d).toRequest.method = "PATCH" ∧ (q.update d).toRequest.body = some d ∧
      dictGet (q.update d).toRequest.headers "Prefer" = some "return=representation") ∧
    (q.delete.toRequest.method = "DELETE" ∧ q.delete.toRequest.body = none ∧
      dictGet q.delete.toRequest.headers "Prefer" = some "return=representation") ∧
    (∀ b h t, (TableQuery.init b h t).toRequest.method = "GET" ∧
      (TableQuery.init b h t).toRequest.body = none) := by
  refine ⟨⟨rfl, ?_, ?_⟩, ⟨rfl, ?_, ?_⟩, ⟨rfl, ?_, ?_⟩, ?_⟩
  · simp [TableQuery.insert, TableQuery.toRequest]
  · simp [TableQuery.insert, TableQuery.toRequest, dictGet_dictSet_self]
  · simp [TableQuery.update, TableQuery.toRequest]
  · simp [TableQuery.update, TableQuery.toRequest, dictGet_dictSet_self]
  · simp [TableQuery.delete, TableQuery.toRequest]
  · simp [TableQuery.delete, TableQuery.toRequest, dictGet_dictSet_self]
  · intro b h t
    exact ⟨rfl, rfl⟩

/-- C8: a successful (status < 400) response with an empty body yields an
empty row sequence, not an error. -/
theorem empty_body_empty_rows (q : TableQuery) (r : HttpResponse)
    (hs : r.status_code < 400) (ht : r.text = "") :
    ∃ env : SupabaseResponse, q.execute (.ok r) = .ok env ∧ env.data = [] := by
  have h4 : ¬ 400 ≤ r.status_code := by omega
  simp [TableQuery.execute, h4, ht]

/-- C8 witness: an empty-bodied 204-style response to a DELETE yields the
empty row sequence. -/
theorem empty_body_empty_rows_witness :
    204 < 400 ∧ ("" : String) = "" ∧
    (∃ env : SupabaseResponse,
      ((((SupabaseClient.make "u" "k").from_ "profiles").delete).execute
          (.ok { status_code := 204, text := "", jsonRows := [], content_range := none }))
        = .ok env ∧ env.data = []) :=
  ⟨by decide, rfl,
   empty_body_empty_rows (((SupabaseClient.make "u" "k").from_ "profiles").delete)
     { status_code := 204, text := "", jsonRows := [], content_range := none }
     (by decide) rfl⟩

/-- C9: a transport failure propagates as a transport error, an HTTP
status ≥ 400 as a backend error, and the two are distinguishable by the
caller (never equal). -/
theorem transport_error_distinct_from_backend_error (q : TableQuery) (e : String)
    (r : HttpResponse) (h : 400 ≤ r.status_code) :
    q.execute (.error e) = .error (.transport e) ∧
    q.execute (.ok r) = .error (.backend r.status_code r.text) ∧
    (∀ s d, ExecError.transport e ≠ ExecError.backend s d) := by
  refine ⟨rfl, ?_, ?_⟩
  · simp [TableQuery.execute, h]
  · intro s d hcontra
    cases hcontra

/-- C9 witness: a connection failure and a 500 response produce the two
distinct error forms. -/
theorem transport_error_distinct_from_backend_error_witness :
    400 ≤ 500 ∧
    ((((SupabaseClient.make "u" "k").from_ "profiles").execute
        (.error "connection refused")) = .error (.transport "connection refused") ∧
     (((SupabaseClient.make "u" "k").from_ "profiles").execute
        (.ok { status_code := 500, text := "boom", jsonRows := [], content_range := none }))
       = .error (.backend 500 "boom") ∧
     (∀ s d, ExecError.transport "connection refused" ≠ ExecError.backend s d)) :=
  ⟨by decide,
   transport_error_distinct_from_backend_error
     ((SupabaseClient.make "u" "k").from_ "profiles") "connection refused"
     { status_code := 500, text := "boom", jsonRows := [], content_range := none }
     (by decide)⟩

/-- C10: the builder holds at most one Prefer value: a count request then a
staged mutation leaves `Prefer: return=representation`; a staged mutation
then a count request leaves `Prefer: count=<mode>`; and the two values are
never equal, so both directives are never sent together. -/
theorem prefer_header_single_valued (q : TableQuery) (m : Mutation)
    (columns mode : String) (hmode : mode ≠ "") :
    dictGet ((q.select columns (some mode)).stage m).toRequest.headers "Prefer"
      = some "return=representation" ∧
    dictGet ((q.stage m).select columns (some mode)).toRequest.headers "Prefer"
      = some ("count=" ++ mode) ∧
    ("count=" ++ mode) ≠ "return=representation" := by
  refine ⟨?_, ?_, ?_⟩
  · cases m <;>
      simp [TableQuery.stage, TableQuery.insert, TableQuery.update, TableQuery.delete,
        TableQuery.toRequest, dictGet_dictSet_self]
  · cases m <;>
      simp [TableQuery.stage, TableQuery.select, hmode, TableQuery.insert, TableQuery.update,
        TableQuery.delete, TableQuery.toRequest, dictGet_dictSet_self]
  · intro hcontra
    have h1 : ("count=" ++ mode).data = "return=representation".data :=
      congrArg String.data hcontra
    rw [String.data_append] at h1
    have h2 : "count=".data = ['c', 'o', 'u', 'n', 't', '='] := rfl
    have h3 : "return=representation".data
        = ['r', 'e', 't', 'u', 'r', 'n', '=', 'r', 'e', 'p', 'r', 'e', 's', 'e', 'n',
           't', 'a', 't', 'i', 'o', 'n'] := rfl
    rw [h2, h3] at h1
    simp at h1

/-- C10 witness: `select("*", count="exact")` then `delete()` sends
`Prefer: return=representation`; `delete()` then `select("*", count="exact")`
sends `Prefer: count=exact`. -/
theorem prefer_header_single_valued_witness :
    ("exact" : String) ≠ "" ∧
    (dictGet ((((SupabaseClient.make "u" "k").from_ "profiles").select "*"
          (some "exact")).stage Mutation.del).toRequest.headers "Prefer"
        = some "return=representation" ∧
     dictGet ((((SupabaseClient.make "u" "k").from_ "profiles").stage Mutation.del).select "*"
          (some "exact")).toRequest.headers "Prefer"
        = some ("count=" ++ "exact") ∧
     ("count=" ++ "exact") ≠ "return=representation") :=
  ⟨by decide,
   prefer_header_single_valued ((SupabaseClient.make "u" "k").from_ "profiles")
     Mutation.del "*" "exact" (by decide)⟩

end ProfileApi
